import Mathlib

/-!
Verification of the extraction orchestration layer of the AGLAE data
converter (`new_aglae_data_converter/converter.py`).

The orchestrator `convert` validates the data and output paths, resolves a
configuration path (falling back to a bundled default), loads the
configuration once, and dispatches to two external converters — the
globals/standards converter and the LST converter — summing the number of
processed files they report.

The converters, the config parser and the filesystem are external
collaborators: they are embedded as an abstract environment `Env` of
functions, and `convert` additionally returns the trace of collaborator
invocations (configuration loads and converter calls, with the arguments
passed to each), so that invocation-counting properties can be stated.
Exceptions are embedded as `Except`: `FileNotFoundError` raised by
`Path.resolve(strict=True)`, `ValueError` raised for a missing
configuration file, and errors raised by the collaborators themselves
(propagated as `OrchError.raised`).
-/

/-- The closed set of extraction kinds.  Modelled from the spec: the enum
`ExtractionType` lives in `enums.py`, a module not present in the excerpt;
the spec fixes its members as exactly GLOBALS, STANDARDS and LST. -/
inductive ExtractionType where
  | GLOBALS
  | STANDARDS
  | LST
deriving DecidableEq, Repr, Fintype

/-- Errors surfaced by one orchestration call: the orchestrator's own
`FileNotFoundError` (carrying the offending path) and `ValueError`
(carrying the message), plus errors of type `ε` raised by a collaborator
(the config parser or a converter) and propagated unmodified. -/
inductive OrchError (ε : Type) where
  | fileNotFound (path : String)
  | valueError (msg : String)
  | raised (e : ε)
deriving DecidableEq, Repr

/-- One collaborator invocation, recording the arguments it was passed.
`γ` is the (opaque) configuration type. -/
inductive Event (γ : Type) where
  | configLoad (path : String)
  | globalsCall (kinds : List ExtractionType) (dataPath outputPath : String) (config : γ)
  | lstCall (dataPath outputPath : String) (config : γ)
deriving DecidableEq, Repr

/-- The kind of an invocation, with the arguments erased. -/
inductive EventKind where
  | configLoad
  | globalsCall
  | lstCall
deriving DecidableEq, Repr

/-- Erase the arguments of an invocation. -/
def eventKind {γ : Type} : Event γ → EventKind
  | .configLoad _ => .configLoad
  | .globalsCall _ _ _ _ => .globalsCall
  | .lstCall _ _ _ => .lstCall

/-- Number of invocations of a given kind in a trace. -/
def countKind {γ : Type} (k : EventKind) (t : List (Event γ)) : Nat :=
  (t.filter (fun e => eventKind e == k)).length

/-- The external collaborators of the orchestrator, over an opaque
configuration type `γ` and an opaque collaborator-error type `ε`:
 * `pathExists` — the filesystem: whether a path resolves to an existing
   location (`Path.resolve(strict=True)` succeeds / `Path.exists()`);
 * `parseConfig` — `parse_config` from `new_aglae_data_converter.config`;
 * `convertGlobals` — `convert_globals_to_hdf5` from `globals.converter`,
   taking the full extraction-kind tuple, the data path, the output path
   and the configuration;
 * `convertLst` — `convert_lst_to_hdf5` from `lst.converter`, taking the
   data path, the output path and the configuration (no kind set). -/
structure Env (γ ε : Type) where
  pathExists : String → Bool
  parseConfig : String → Except ε γ
  convertGlobals : List ExtractionType → String → String → γ → Except ε Nat
  convertLst : String → String → γ → Except ε Nat

/-- The default configuration location substituted when no config path is
supplied: `pathlib.Path(__file__).parents[1] / "config.yml"`, i.e. the file
`config.yml` at the orchestration module's install root. -/
def defaultConfigPath : String := "config.yml"

/-- `ExtractionType.GLOBALS in extraction_types or ExtractionType.STANDARDS
in extraction_types` — the guard of the globals/standards dispatch. -/
def needsGlobals (extraction_types : List ExtractionType) : Bool :=
  extraction_types.contains .GLOBALS || extraction_types.contains .STANDARDS

/-- `ExtractionType.LST in extraction_types` — the guard of the LST
dispatch. -/
def needsLst (extraction_types : List ExtractionType) : Bool :=
  extraction_types.contains .LST

/-- Shallow embedding of `convert` from
`new_aglae_data_converter/converter.py`.  Returns the outcome (processed
file count, or the first error raised) together with the trace of
collaborator invocations, in order.  Mirrors the source line by line:

 1. `data_path.resolve(strict=True)` — `FileNotFoundError` on the data
    path if it does not exist;
 2. `output_path.resolve(strict=True)` — likewise for the output path;
 3. `if not config_path: config_path = Path(__file__).parents[1] /
    "config.yml"` — substitute the default when none is supplied;
 4. `if not config_path.exists(): raise ValueError(...)`;
 5. `config = parse_config(config_path)`;
 6. `processed_files_num = 0`, incremented by `convert_globals_to_hdf5`
    when GLOBALS or STANDARDS is requested, then by `convert_lst_to_hdf5`
    when LST is requested; an exception in either aborts the call. -/
def convert {γ ε : Type} (env : Env γ ε)
    (extraction_types : List ExtractionType)
    (data_path output_path : String)
    (config_path : Option String) :
    Except (OrchError ε) Nat × List (Event γ) :=
  if env.pathExists data_path = false then
    (.error (.fileNotFound data_path), [])
  else if env.pathExists output_path = false then
    (.error (.fileNotFound output_path), [])
  else
    let config_path := config_path.getD defaultConfigPath
    if env.pathExists config_path = false then
      (.error (.valueError "Default config file is missing. Provide a config file."), [])
    else
      match env.parseConfig config_path with
      | .error e => (.error (.raised e), [.configLoad config_path])
      | .ok config =>
        if needsGlobals extraction_types then
          match env.convertGlobals extraction_types data_path output_path config with
          | .error e =>
            (.error (.raised e),
              [.configLoad config_path,
               .globalsCall extraction_types data_path output_path config])
          | .ok g =>
            if needsLst extraction_types then
              match env.convertLst data_path output_path config with
              | .error e =>
                (.error (.raised e),
                  [.configLoad config_path,
                   .globalsCall extraction_types data_path output_path config,
                   .lstCall data_path output_path config])
              | .ok l =>
                (.ok (g + l),
                  [.configLoad config_path,
                   .globalsCall extraction_types data_path output_path config,
                   .lstCall data_path output_path config])
            else
              (.ok g,
                [.configLoad config_path,
                 .globalsCall extraction_types data_path output_path config])
        else
          if needsLst extraction_types then
            match env.convertLst data_path output_path config with
            | .error e =>
              (.error (.raised e),
                [.configLoad config_path, .lstCall data_path output_path config])
            | .ok l =>
              (.ok l, [.configLoad config_path, .lstCall data_path output_path config])
          else
            (.ok 0, [.configLoad config_path])

/-- A stub environment in which every path exists, parsing yields the
configuration value 5, the globals/standards converter reports one file per
element of the kind tuple it receives, and the LST converter reports 7. -/
def stubEnv : Env Nat String where
  pathExists := fun _ => true
  parseConfig := fun _ => .ok 5
  convertGlobals := fun ets _ _ _ => .ok ets.length
  convertLst := fun _ _ _ => .ok 7

/-- A stub filesystem in which only the paths "data" and "out" exist. -/
def sparseEnv : Env Nat String where
  pathExists := fun p => p == "data" || p == "out"
  parseConfig := fun _ => .ok 5
  convertGlobals := fun ets _ _ _ => .ok ets.length
  convertLst := fun _ _ _ => .ok 7

/-- A stub environment whose globals/standards converter raises the error
"boom"; every path exists and the LST converter reports 7. -/
def failEnv : Env Nat String where
  pathExists := fun _ => true
  parseConfig := fun _ => .ok 1
  convertGlobals := fun _ _ _ _ => .error "boom"
  convertLst := fun _ _ _ => .ok 7

/-- The five possible shapes of an orchestration trace: empty (a path
check or the config-existence check failed), a lone configuration load
(parse error, or nothing dispatched), or a configuration load followed by
the dispatched converter calls in order. -/
theorem convert_trace_cases {γ ε : Type} (env : Env γ ε)
    (ets : List ExtractionType) (dp op : String) (cp : Option String) :
    (convert env ets dp op cp).snd = [] ∨
    (convert env ets dp op cp).snd = [.configLoad (cp.getD defaultConfigPath)] ∨
    (∃ c, env.parseConfig (cp.getD defaultConfigPath) = .ok c ∧
      ((convert env ets dp op cp).snd =
          [.configLoad (cp.getD defaultConfigPath), .globalsCall ets dp op c] ∨
       (convert env ets dp op cp).snd =
          [.configLoad (cp.getD defaultConfigPath), .globalsCall ets dp op c,
           .lstCall dp op c] ∨
       (convert env ets dp op cp).snd =
          [.configLoad (cp.getD defaultConfigPath), .lstCall dp op c])) := by
  cases hdp : env.pathExists dp with
  | false => left; simp [convert, hdp]
  | true =>
  cases hop : env.pathExists op with
  | false => left; simp [convert, hdp, hop]
  | true =>
  cases hcp : env.pathExists (cp.getD defaultConfigPath) with
  | false => left; simp [convert, hdp, hop, hcp]
  | true =>
  cases hparse : env.parseConfig (cp.getD defaultConfigPath) with
  | error e => right; left; simp [convert, hdp, hop, hcp, hparse]
  | ok c =>
  cases hG : needsGlobals ets with
  | true =>
    cases hg : env.convertGlobals ets dp op c with
    | error e =>
      exact Or.inr (Or.inr ⟨c, rfl, Or.inl (by simp [convert, hdp, hop, hcp, hparse, hG, hg])⟩)
    | ok g =>
      cases hL : needsLst ets with
      | true =>
        refine Or.inr (Or.inr ⟨c, rfl, Or.inr (Or.inl ?_)⟩)
        cases hl : env.convertLst dp op c with
        | error e => simp [convert, hdp, hop, hcp, hparse, hG, hg, hL, hl]
        | ok l => simp [convert, hdp, hop, hcp, hparse, hG, hg, hL, hl]
      | false =>
        exact Or.inr (Or.inr ⟨c, rfl, Or.inl (by simp [convert, hdp, hop, hcp, hparse, hG, hg, hL])⟩)
  | false =>
    cases hL : needsLst ets with
    | true =>
      refine Or.inr (Or.inr ⟨c, rfl, Or.inr (Or.inr ?_)⟩)
      cases hl : env.convertLst dp op c with
      | error e => simp [convert, hdp, hop, hcp, hparse, hG, hL, hl]
      | ok l => simp [convert, hdp, hop, hcp, hparse, hG, hL, hl]
    | false =>
      right; left; simp [convert, hdp, hop, hcp, hparse, hG, hL]

/-- Claim C2: if the data path or the output path does not resolve to an
existing filesystem location, `convert` fails with a file-not-found error
identifying the failing path (the data path is checked first), and the
trace is empty — the configuration is not loaded and neither converter is
invoked. -/
theorem convert_path_not_found {γ ε : Type} (env : Env γ ε)
    (ets : List ExtractionType) (dp op : String) (cp : Option String) :
    (env.pathExists dp = false →
      convert env ets dp op cp = (.error (.fileNotFound dp), [])) ∧
    (env.pathExists dp = true → env.pathExists op = false →
      convert env ets dp op cp = (.error (.fileNotFound op), [])) := by
  constructor
  · intro h; simp [convert, h]
  · intro h1 h2; simp [convert, h1, h2]

/-- Witness for C2: in `sparseEnv`, a request with a nonexistent data path
"nope" fails naming "nope", and one with a nonexistent output path "gone"
fails naming "gone", each with an empty invocation trace. -/
theorem convert_path_not_found_witness :
    convert sparseEnv [ExtractionType.LST] "nope" "out" none =
      (.error (.fileNotFound "nope"), []) ∧
    convert sparseEnv [ExtractionType.LST] "data" "gone" none =
      (.error (.fileNotFound "gone"), []) :=
  ⟨(convert_path_not_found sparseEnv [ExtractionType.LST] "nope" "out" none).1 (by decide),
   (convert_path_not_found sparseEnv [ExtractionType.LST] "data" "gone" none).2
     (by decide) (by decide)⟩

/-- Claim C3: when no config path is supplied, `convert` substitutes the
bundled default location `defaultConfigPath` (every configuration load in
the trace is at that location), and if no file exists there the call fails
with the missing-default-configuration `ValueError`, the trace being empty
— the configuration is never parsed and no converter is invoked. -/
theorem convert_missing_default_config {γ ε : Type} (env : Env γ ε)
    (ets : List ExtractionType) (dp op : String)
    (hdp : env.pathExists dp = true) (hop : env.pathExists op = true) :
    (env.pathExists defaultConfigPath = false →
      convert env ets dp op none =
        (.error (.valueError "Default config file is missing. Provide a config file."), [])) ∧
    (∀ e ∈ (convert env ets dp op none).snd, ∀ p, e = Event.configLoad p →
      p = defaultConfigPath) := by
  refine ⟨fun h => by simp [convert, hdp, hop, h], ?_⟩
  intro e he p hp
  subst hp
  rcases convert_trace_cases env ets dp op none with h | h | ⟨c, _, h | h | h⟩ <;>
    rw [h] at he <;> simp_all

/-- Witness for C3: in `sparseEnv` (where only "data" and "out" exist, so
the default "config.yml" is absent), the call with no config path fails
with the missing-configuration error and an empty trace. -/
theorem convert_missing_default_config_witness :
    convert sparseEnv [ExtractionType.GLOBALS] "data" "out" none =
      (.error (.valueError "Default config file is missing. Provide a config file."), []) :=
  (convert_missing_default_config sparseEnv [ExtractionType.GLOBALS] "data" "out"
    (by decide) (by decide)).1 (by decide)

/-- Claim C9: the existence check also guards an explicitly supplied config
path: if a config path is given but no file exists there, `convert` fails
with the same missing-configuration `ValueError`, with an empty trace — the
configuration is never parsed and no converter is invoked. -/
theorem convert_missing_explicit_config {γ ε : Type} (env : Env γ ε)
    (ets : List ExtractionType) (dp op p : String)
    (hdp : env.pathExists dp = true) (hop : env.pathExists op = true)
    (hp : env.pathExists p = false) :
    convert env ets dp op (some p) =
      (.error (.valueError "Default config file is missing. Provide a config file."), []) := by
  simp [convert, hdp, hop, hp]

/-- Witness for C9: in `sparseEnv`, supplying the nonexistent config path
"mycfg.yml" fails with the missing-configuration error and an empty
trace. -/
theorem convert_missing_explicit_config_witness :
    convert sparseEnv [ExtractionType.LST] "data" "out" (some "mycfg.yml") =
      (.error (.valueError "Default config file is missing. Provide a config file."), []) :=
  convert_missing_explicit_config sparseEnv [ExtractionType.LST] "data" "out" "mycfg.yml"
    (by decide) (by decide) (by decide)

/-- Claim C1: when both paths exist and the configuration parses, `convert`
returns `g + l`, where `g` is the globals/standards converter's count when
GLOBALS or STANDARDS is requested and 0 otherwise (that converter then not
being invoked), and `l` is the LST converter's count when LST is requested
and 0 otherwise (that converter then not being invoked); in particular,
when neither guard holds, no converter is invoked and the result is 0. -/
theorem convert_returns_sum {γ ε : Type} (env : Env γ ε)
    (ets : List ExtractionType) (dp op : String) (cp : Option String)
    (cfg : γ) (g l : Nat)
    (hdp : env.pathExists dp = true) (hop : env.pathExists op = true)
    (hcp : env.pathExists (cp.getD defaultConfigPath) = true)
    (hcfg : env.parseConfig (cp.getD defaultConfigPath) = .ok cfg)
    (hg : env.convertGlobals ets dp op cfg = .ok g)
    (hl : env.convertLst dp op cfg = .ok l) :
    (convert env ets dp op cp).fst =
      .ok ((if needsGlobals ets then g else 0) + (if needsLst ets then l else 0)) ∧
    (needsGlobals ets = false →
      countKind .globalsCall (convert env ets dp op cp).snd = 0) ∧
    (needsLst ets = false →
      countKind .lstCall (convert env ets dp op cp).snd = 0) := by
  cases hG : needsGlobals ets <;> cases hL : needsLst ets <;>
    simp [convert, countKind, eventKind, hdp, hop, hcp, hcfg, hg, hl, hG, hL]

/-- Witness for C1: in `stubEnv`, requesting GLOBALS and LST yields
2 + 7 = 9 processed files (the globals/standards converter reports one per
element of the two-element kind tuple, the LST converter reports 7). -/
theorem convert_returns_sum_witness :
    (convert stubEnv [ExtractionType.GLOBALS, ExtractionType.LST] "data" "out" none).fst =
      .ok 9 := by
  have h := convert_returns_sum stubEnv [ExtractionType.GLOBALS, ExtractionType.LST]
    "data" "out" none 5 2 7 rfl rfl rfl rfl rfl rfl
  simpa using h.1

/-- Claim C4: given that both paths exist and the (effective) config file
exists, the configuration is loaded exactly once per orchestration call,
the load is the first recorded invocation — before any converter dispatch
— and when parsing succeeds, every converter invocation in the call
receives exactly the parsed configuration. -/
theorem convert_config_once {γ ε : Type} (env : Env γ ε)
    (ets : List ExtractionType) (dp op : String) (cp : Option String)
    (hdp : env.pathExists dp = true) (hop : env.pathExists op = true)
    (hcp : env.pathExists (cp.getD defaultConfigPath) = true) :
    countKind .configLoad (convert env ets dp op cp).snd = 1 ∧
    (convert env ets dp op cp).snd.head? =
      some (.configLoad (cp.getD defaultConfigPath)) ∧
    (∀ cfg, env.parseConfig (cp.getD defaultConfigPath) = Except.ok cfg →
      ∀ e ∈ (convert env ets dp op cp).snd,
        (∀ ks a b c, e = Event.globalsCall ks a b c → c = cfg) ∧
        (∀ a b c, e = Event.lstCall a b c → c = cfg)) := by
  cases hparse : env.parseConfig (cp.getD defaultConfigPath) with
  | error e => simp [convert, countKind, eventKind, hdp, hop, hcp, hparse]
  | ok c =>
    cases hG : needsGlobals ets with
    | true =>
      cases hg : env.convertGlobals ets dp op c with
      | error e =>
        simp [convert, countKind, eventKind, hdp, hop, hcp, hparse, hG, hg] <;>
          (intros; subst_vars; rfl)
      | ok g =>
        cases hL : needsLst ets with
        | true =>
          cases hl : env.convertLst dp op c with
          | error e =>
            simp [convert, countKind, eventKind, hdp, hop, hcp, hparse, hG, hg, hL, hl] <;>
              (intros; subst_vars; rfl)
          | ok l =>
            simp [convert, countKind, eventKind, hdp, hop, hcp, hparse, hG, hg, hL, hl] <;>
              (intros; subst_vars; rfl)
        | false =>
          simp [convert, countKind, eventKind, hdp, hop, hcp, hparse, hG, hg, hL] <;>
            (intros; subst_vars; rfl)
    | false =>
      cases hL : needsLst ets with
      | true =>
        cases hl : env.convertLst dp op c with
        | error e =>
          simp [convert, countKind, eventKind, hdp, hop, hcp, hparse, hG, hL, hl] <;>
            (intros; subst_vars; rfl)
        | ok l =>
          simp [convert, countKind, eventKind, hdp, hop, hcp, hparse, hG, hL, hl] <;>
            (intros; subst_vars; rfl)
      | false =>
        simp [convert, countKind, eventKind, hdp, hop, hcp, hparse, hG, hL]

/-- Witness for C4: in `stubEnv`, requesting GLOBALS and LST loads the
configuration exactly once, as the first invocation, at the default
location. -/
theorem convert_config_once_witness :
    countKind .configLoad
        (convert stubEnv [ExtractionType.GLOBALS, ExtractionType.LST] "data" "out" none).snd = 1 ∧
    (convert stubEnv [ExtractionType.GLOBALS, ExtractionType.LST] "data" "out" none).snd.head? =
      some (.configLoad defaultConfigPath) := by
  have h := convert_config_once stubEnv [ExtractionType.GLOBALS, ExtractionType.LST]
    "data" "out" none rfl rfl rfl
  exact ⟨h.1, h.2.1⟩

/-- Claim C5: when the globals/standards converter is invoked it receives
the full requested kind tuple unfiltered, together with the data and output
paths; when the LST converter is invoked it receives the data and output
paths (and the configuration — its argument list has no kind-set slot at
all, as the type of `Env.convertLst` shows). -/
theorem convert_converter_args {γ ε : Type} (env : Env γ ε)
    (ets : List ExtractionType) (dp op : String) (cp : Option String) :
    ∀ e ∈ (convert env ets dp op cp).snd,
      (∀ ks a b c, e = Event.globalsCall ks a b c → ks = ets ∧ a = dp ∧ b = op) ∧
      (∀ a b c, e = Event.lstCall a b c → a = dp ∧ b = op) := by
  intro e he
  rcases convert_trace_cases env ets dp op cp with h | h | ⟨c, _, h | h | h⟩ <;> rw [h] at he
  · simp at he
  · simp at he; subst he; simp
  · simp at he; rcases he with rfl | rfl <;> simp <;> (intros; subst_vars; exact ⟨rfl, rfl, rfl⟩)
  · simp at he; rcases he with rfl | rfl | rfl <;> simp <;> (intros; subst_vars; exact ⟨rfl, rfl, rfl⟩)
  · simp at he; rcases he with rfl | rfl <;> simp <;> (intros; subst_vars; exact ⟨rfl, rfl, rfl⟩)

/-- Witness for C5: the globals/standards invocation recorded in the
`stubEnv` run with kinds GLOBALS, LST carries exactly that tuple and the
two paths. -/
theorem convert_converter_args_witness :
    [ExtractionType.GLOBALS, ExtractionType.LST] =
        [ExtractionType.GLOBALS, ExtractionType.LST] ∧
    "data" = "data" ∧ "out" = "out" :=
  (convert_converter_args stubEnv [ExtractionType.GLOBALS, ExtractionType.LST] "data" "out" none
      (Event.globalsCall [ExtractionType.GLOBALS, ExtractionType.LST] "data" "out" 5)
      (by decide)).1
    [ExtractionType.GLOBALS, ExtractionType.LST] "data" "out" 5 rfl

/-- Claim C6: a converter error propagates unmodified (wrapped only as
`OrchError.raised`, carrying the collaborator's error verbatim) to the
caller of `convert`, and an error of the globals/standards converter
prevents the LST converter from being invoked — fail-fast, no partial
continuation. -/
theorem convert_error_propagation {γ ε : Type} (env : Env γ ε)
    (ets : List ExtractionType) (dp op : String) (cp : Option String) (cfg : γ)
    (hdp : env.pathExists dp = true) (hop : env.pathExists op = true)
    (hcp : env.pathExists (cp.getD defaultConfigPath) = true)
    (hcfg : env.parseConfig (cp.getD defaultConfigPath) = .ok cfg) :
    (∀ e, needsGlobals ets = true → env.convertGlobals ets dp op cfg = .error e →
      (convert env ets dp op cp).fst = .error (.raised e) ∧
      countKind .lstCall (convert env ets dp op cp).snd = 0) ∧
    (∀ e g, needsLst ets = true →
      (needsGlobals ets = true → env.convertGlobals ets dp op cfg = .ok g) →
      env.convertLst dp op cfg = .error e →
      (convert env ets dp op cp).fst = .error (.raised e)) := by
  constructor
  · intro e hG hg
    simp [convert, countKind, eventKind, hdp, hop, hcp, hcfg, hG, hg]
  · intro e g hL hgok hl
    cases hG : needsGlobals ets with
    | true => simp [convert, hdp, hop, hcp, hcfg, hG, hL, hgok hG, hl]
    | false => simp [convert, hdp, hop, hcp, hcfg, hG, hL, hl]

/-- Witness for C6: in `failEnv` (whose globals/standards converter raises
"boom"), requesting GLOBALS and LST surfaces exactly that error and the
LST converter is never invoked. -/
theorem convert_error_propagation_witness :
    (convert failEnv [ExtractionType.GLOBALS, ExtractionType.LST] "d" "o" none).fst =
      .error (.raised "boom") ∧
    countKind .lstCall
      (convert failEnv [ExtractionType.GLOBALS, ExtractionType.LST] "d" "o" none).snd = 0 :=
  (convert_error_propagation failEnv [ExtractionType.GLOBALS, ExtractionType.LST]
      "d" "o" none 1 rfl rfl rfl rfl).1 "boom" rfl rfl

/-- Claim C8: determinism as a two-run property — two orchestration calls
with identical inputs, over a filesystem and converter/parser stubs that
behave identically, produce identical outcomes and identical invocation
traces (hence identical total counts and identical sets of converter
invocations). -/
theorem convert_deterministic {γ ε : Type} (env1 env2 : Env γ ε)
    (ets : List ExtractionType) (dp op : String) (cp : Option String)
    (h1 : env1.pathExists = env2.pathExists)
    (h2 : env1.parseConfig = env2.parseConfig)
    (h3 : env1.convertGlobals = env2.convertGlobals)
    (h4 : env1.convertLst = env2.convertLst) :
    convert env1 ets dp op cp = convert env2 ets dp op cp := by
  have henv : env1 = env2 := by cases env1; cases env2; simp_all
  rw [henv]

/-- Witness for C8: two runs over the same stub environment coincide. -/
theorem convert_deterministic_witness :
    convert stubEnv [ExtractionType.LST] "data" "out" none =
      convert stubEnv [ExtractionType.LST] "data" "out" none :=
  convert_deterministic stubEnv stubEnv [ExtractionType.LST] "data" "out" none
    rfl rfl rfl rfl

/-- Python's `str.upper` restricted to ASCII characters, as applied to the
command-line tokens (which are ASCII-only, being drawn from the argparse
choices). -/
def asciiUpperChar (c : Char) : Char :=
  if 'a' ≤ c ∧ c ≤ 'z' then Char.ofNat (c.toNat - 32) else c

/-- `token.upper()` on an ASCII token. -/
def asciiUpper (s : String) : String :=
  String.mk (s.data.map asciiUpperChar)

/-- Modelled from the spec: `ExtractionType[name]` — construction of an
`ExtractionType` from the textual name of a member, as used by the
command-line surface.  The defining module `enums.py` is not part of the
excerpt; the spec fixes the members as exactly GLOBALS, STANDARDS and
LST. -/
def extractionTypeOfName (name : String) : Option ExtractionType :=
  if name = "GLOBALS" then some .GLOBALS
  else if name = "STANDARDS" then some .STANDARDS
  else if name = "LST" then some .LST
  else none

/-- The `choices` of the `--extraction-types` / `-e` flag. -/
def cliExtractionChoices : List String := ["lst", "globals", "standards"]

/-- The `default` of the `--extraction-types` / `-e` flag. -/
def cliExtractionDefault : List String := ["lst", "globals", "standards"]

/-- The command-line handling of `--extraction-types` / `-e`: argparse
accepts one or more tokens (`nargs="+"`), each drawn from the choices,
and substitutes the default token list when the flag is omitted (`none`);
the `__main__` block then maps each accepted token through
`ExtractionType[token.upper()]`.  The result is `none` when argparse
rejects the argument list. -/
def parseExtractionTypesCli (arg : Option (List String)) :
    Option (List ExtractionType) :=
  match arg with
  | none => cliExtractionDefault.mapM (fun tok => extractionTypeOfName (asciiUpper tok))
  | some toks =>
    if toks.length ≥ 1 ∧ ∀ tok ∈ toks, tok ∈ cliExtractionChoices then
      toks.mapM (fun tok => extractionTypeOfName (asciiUpper tok))
    else none

/-- Every token drawn from the argparse choices upper-cases to the name of
an `ExtractionType` member, so the token-to-kind mapping never fails on an
accepted token list. -/
theorem mapM_extractionType_isSome (toks : List String)
    (h : ∀ tok ∈ toks, tok ∈ cliExtractionChoices) :
    (toks.mapM (fun tok => extractionTypeOfName (asciiUpper tok))).isSome = true := by
  induction toks with
  | nil => rfl
  | cons t ts ih =>
    have ht : t ∈ cliExtractionChoices := h t (List.mem_cons_self t ts)
    have het : ∃ et, extractionTypeOfName (asciiUpper t) = some et := by
      simp only [cliExtractionChoices, List.mem_cons, List.not_mem_nil, or_false] at ht
      rcases ht with rfl | rfl | rfl <;> exact ⟨_, rfl⟩
    obtain ⟨et, het⟩ := het
    obtain ⟨ets, hets⟩ := Option.isSome_iff_exists.mp
      (ih (fun tok htok => h tok (List.mem_cons_of_mem t htok)))
    rw [List.mapM_cons, het, hets]
    rfl

/-- Claim C7: the `--extraction-types` / `-e` flag accepts one or more
tokens from lst, globals, standards; each accepted token maps to the
`ExtractionType` member named by its upper-casing (the mapping is thus
insensitive to the case difference between the lowercase tokens and the
uppercase member names); an empty token list is rejected; omitting the
flag defaults to all three kinds. -/
theorem cli_extraction_types :
    parseExtractionTypesCli none =
      some [ExtractionType.LST, ExtractionType.GLOBALS, ExtractionType.STANDARDS] ∧
    extractionTypeOfName (asciiUpper "lst") = some ExtractionType.LST ∧
    extractionTypeOfName (asciiUpper "globals") = some ExtractionType.GLOBALS ∧
    extractionTypeOfName (asciiUpper "standards") = some ExtractionType.STANDARDS ∧
    parseExtractionTypesCli (some []) = none ∧
    (∀ toks, toks ≠ [] → (∀ tok ∈ toks, tok ∈ cliExtractionChoices) →
      parseExtractionTypesCli (some toks) =
        toks.mapM (fun tok => extractionTypeOfName (asciiUpper tok)) ∧
      (toks.mapM (fun tok => extractionTypeOfName (asciiUpper tok))).isSome = true) := by
  refine ⟨by decide, by decide, by decide, by decide, by decide, ?_⟩
  intro toks hne h
  have hcond : toks.length ≥ 1 ∧ ∀ tok ∈ toks, tok ∈ cliExtractionChoices :=
    ⟨List.length_pos.mpr hne, h⟩
  refine ⟨?_, mapM_extractionType_isSome toks h⟩
  simp only [parseExtractionTypesCli]
  rw [if_pos hcond]

/-- Witness for C7: the token list globals, lst is accepted and maps to
the kinds GLOBALS, LST. -/
theorem cli_extraction_types_witness :
    parseExtractionTypesCli (some ["globals", "lst"]) =
      some [ExtractionType.GLOBALS, ExtractionType.LST] :=
  ((cli_extraction_types.2.2.2.2.2 ["globals", "lst"] (by decide) (by decide)).1).trans
    (by decide)

/-- A stub environment (over trivial configuration and error types) whose
globals/standards converter reports one file per element of the kind tuple
it receives; every path exists. -/
def lengthEnv : Env Unit Unit where
  pathExists := fun _ => true
  parseConfig := fun _ => .ok ()
  convertGlobals := fun ets _ _ _ => .ok ets.length
  convertLst := fun _ _ _ => .ok 0

/-- Counterexample to C10 as stated: the tuples GLOBALS and
GLOBALS, GLOBALS contain exactly the same set of kinds, yet the returned
totals differ (1 versus 2), because the globals/standards converter
receives the kind tuple verbatim and may be sensitive to duplicates or
order. -/
theorem convert_membership_counterexample :
    (∀ t : ExtractionType,
      t ∈ [ExtractionType.GLOBALS] ↔
        t ∈ [ExtractionType.GLOBALS, ExtractionType.GLOBALS]) ∧
    (convert lengthEnv [ExtractionType.GLOBALS] "d" "o" none).fst = .ok 1 ∧
    (convert lengthEnv [ExtractionType.GLOBALS, ExtractionType.GLOBALS] "d" "o" none).fst =
      .ok 2 :=
  ⟨by decide, rfl, rfl⟩

/-- Claim C10 amended: which converters are invoked depends only on
membership of each kind in the tuple, and each converter is invoked at
most once per call; the outcome and the invocation-kind trace moreover
coincide whenever the globals/standards converter returns the same result
on the two tuples (it receives the tuple verbatim — see C5 — so equal
membership alone does not force this). -/
theorem convert_membership_invariance {γ ε : Type} (env : Env γ ε)
    (ets1 ets2 : List ExtractionType) (dp op : String) (cp : Option String)
    (hmem : ∀ t, t ∈ ets1 ↔ t ∈ ets2)
    (hg : env.convertGlobals ets1 dp op = env.convertGlobals ets2 dp op) :
    (convert env ets1 dp op cp).fst = (convert env ets2 dp op cp).fst ∧
    (convert env ets1 dp op cp).snd.map eventKind =
      (convert env ets2 dp op cp).snd.map eventKind ∧
    countKind .globalsCall (convert env ets1 dp op cp).snd ≤ 1 ∧
    countKind .lstCall (convert env ets1 dp op cp).snd ≤ 1 := by
  have hG : needsGlobals ets1 = needsGlobals ets2 := by
    simp [needsGlobals, hmem ExtractionType.GLOBALS, hmem ExtractionType.STANDARDS]
  have hL : needsLst ets1 = needsLst ets2 := by
    simp [needsLst, hmem ExtractionType.LST]
  have hcg : ∀ c : γ, env.convertGlobals ets1 dp op c = env.convertGlobals ets2 dp op c :=
    fun c => congrFun hg c
  cases hdp : env.pathExists dp with
  | false => simp [convert, countKind, hdp]
  | true =>
  cases hop : env.pathExists op with
  | false => simp [convert, countKind, hdp, hop]
  | true =>
  cases hcp : env.pathExists (cp.getD defaultConfigPath) with
  | false => simp [convert, countKind, hdp, hop, hcp]
  | true =>
  cases hparse : env.parseConfig (cp.getD defaultConfigPath) with
  | error e => simp [convert, countKind, eventKind, hdp, hop, hcp, hparse]
  | ok c =>
  cases hGv : needsGlobals ets1 with
  | true =>
    have hG2 : needsGlobals ets2 = true := hG.symm.trans hGv
    cases hgv : env.convertGlobals ets1 dp op c with
    | error e =>
      have hgv2 : env.convertGlobals ets2 dp op c = .error e := (hcg c).symm.trans hgv
      simp [convert, countKind, eventKind, hdp, hop, hcp, hparse, hGv, hG2, hgv, hgv2]
    | ok g =>
      have hgv2 : env.convertGlobals ets2 dp op c = .ok g := (hcg c).symm.trans hgv
      cases hLv : needsLst ets1 with
      | true =>
        have hL2 : needsLst ets2 = true := hL.symm.trans hLv
        cases hlv : env.convertLst dp op c with
        | error e =>
          simp [convert, countKind, eventKind, hdp, hop, hcp, hparse, hGv, hG2, hgv, hgv2,
            hLv, hL2, hlv]
        | ok l =>
          simp [convert, countKind, eventKind, hdp, hop, hcp, hparse, hGv, hG2, hgv, hgv2,
            hLv, hL2, hlv]
      | false =>
        have hL2 : needsLst ets2 = false := hL.symm.trans hLv
        simp [convert, countKind, eventKind, hdp, hop, hcp, hparse, hGv, hG2, hgv, hgv2,
          hLv, hL2]
  | false =>
    have hG2 : needsGlobals ets2 = false := hG.symm.trans hGv
    cases hLv : needsLst ets1 with
    | true =>
      have hL2 : needsLst ets2 = true := hL.symm.trans hLv
      cases hlv : env.convertLst dp op c with
      | error e =>
        simp [convert, countKind, eventKind, hdp, hop, hcp, hparse, hGv, hG2, hLv, hL2, hlv]
      | ok l =>
        simp [convert, countKind, eventKind, hdp, hop, hcp, hparse, hGv, hG2, hLv, hL2, hlv]
    | false =>
      have hL2 : needsLst ets2 = false := hL.symm.trans hLv
      simp [convert, countKind, eventKind, hdp, hop, hcp, hparse, hGv, hG2, hLv, hL2]

/-- Witness for the amended C10: the tuples GLOBALS, STANDARDS and
STANDARDS, GLOBALS contain the same kinds and `stubEnv`'s
globals/standards converter (which counts tuple elements) returns the same
value on both, so the outcomes agree, and the converter is invoked at most
once. -/
theorem convert_membership_invariance_witness :
    (convert stubEnv [ExtractionType.GLOBALS, ExtractionType.STANDARDS]
        "data" "out" none).fst =
      (convert stubEnv [ExtractionType.STANDARDS, ExtractionType.GLOBALS]
        "data" "out" none).fst ∧
    countKind .globalsCall
      (convert stubEnv [ExtractionType.GLOBALS, ExtractionType.STANDARDS]
        "data" "out" none).snd ≤ 1 := by
  have h := convert_membership_invariance stubEnv
    [ExtractionType.GLOBALS, ExtractionType.STANDARDS]
    [ExtractionType.STANDARDS, ExtractionType.GLOBALS]
    "data" "out" none (by decide) rfl
  exact ⟨h.1, h.2.2.1⟩
